import Mathlib

/-! Verification of the core-crm-be order/inventory backend.

Shallow embedding of the service layer of the repository (Prisma-backed
TypeScript services) as pure Lean functions over an explicit database state,
together with theorems settling the specification claims.

Conventions of the embedding:
* The relational store is a `DB` structure holding lists of rows; Prisma
  `findUnique` / `findFirst` become `List.find?`, `findMany` becomes
  `List.filter` (plus an explicit sort for `orderBy`), `update` maps over the
  row list, and `$transaction` is ordinary sequencing (an error raised before
  the transaction leaves the `DB` untouched, which is exactly the observable
  behaviour of an aborted/unopened transaction).
* Fallible service methods return `Except SvcError …`; each `throw new Error`
  site of the source becomes a typed `SvcError` constructor carrying the data
  in scope at that site.
* `Decimal` columns are modelled as `Rat`, integer columns as `Int` / `Nat`,
  timestamps as `Nat`.  Note `Rat` division is total with `x / 0 = 0`,
  whereas JavaScript float division by zero yields a non-finite value; no
  theorem below relies on the value of a division whose divisor is zero —
  divisor-zero situations are tracked through the `listPrice` field itself.
* JavaScript truthiness (`x || d`, `if (x)`) is modelled by explicit helpers
  (`jsOrNat`, `jsOrStr`, …): `0`, `""`, `null`/`undefined` are falsy; the
  nullish coalescing operator `??` is `Option.getD`.
-/

namespace CoreCrm

/-! ## Data model (prisma schema / migration `part_009`) -/

structure Category where
  id : Nat
  name : String
  isActive : Bool
deriving DecidableEq, Repr

structure Product where
  id : Nat
  name : String
  description : Option String
  categoryId : Option Nat
  defaultPrice : Rat
  currency : Option String
  isActive : Bool
  createdAt : Nat
deriving DecidableEq, Repr

structure ProductVariant where
  id : Nat
  productId : Nat
  sku : String
  barcode : Option String
  variantName : Option String
  isActive : Bool
deriving DecidableEq, Repr

structure Warehouse where
  id : Nat
  name : String
  isActive : Bool
deriving DecidableEq, Repr

structure InventoryStock where
  variantId : Nat
  warehouseId : Nat
  qtyOnHand : Int
  qtyReserved : Int
deriving DecidableEq, Repr

structure OrderStatus where
  id : Nat
  code : String
  label : String
  sortOrder : Nat
  isActive : Bool
deriving DecidableEq, Repr

structure Client where
  id : Nat
  name : String
  document : Option String
  isActive : Bool
  createdAt : Nat
deriving DecidableEq, Repr

structure Order where
  id : Nat
  code : String
  clientId : Nat
  statusId : Nat
  currency : Option String
  createdAt : Nat
  updatedAt : Nat
  createdByUserId : Option Nat
  updatedByUserId : Option Nat
  isDeleted : Bool
deriving DecidableEq, Repr

structure OrderItem where
  id : Nat
  orderId : Nat
  variantId : Nat
  qty : Int
  unitPrice : Rat
  listPrice : Option Rat
  lineTotal : Rat
  currency : Option String
deriving DecidableEq, Repr

structure User where
  id : Nat
deriving DecidableEq, Repr

/-- The whole relational store, plus the autoincrement counters the
`SERIAL` primary keys of `Product` and `ProductVariant` stand for. -/
structure DB where
  categories : List Category
  products : List Product
  variants : List ProductVariant
  warehouses : List Warehouse
  stocks : List InventoryStock
  statuses : List OrderStatus
  orders : List Order
  items : List OrderItem
  clients : List Client
  users : List User
  nextProductId : Nat
  nextVariantId : Nat
deriving DecidableEq, Repr

/-! ## JavaScript value-coercion helpers -/

/-- JavaScript `x || d` on an optional number: `0`, `null` and `undefined` are falsy. -/
def jsOrNat (x : Option Nat) (d : Nat) : Nat :=
  match x with
  | some n => if n = 0 then d else n
  | none => d

/-- JavaScript `x || d` on an optional string: `""`, `null` and `undefined` are falsy. -/
def jsOrStr (x : Option String) (d : String) : String :=
  match x with
  | some s => if s = "" then d else s
  | none => d

/-- JavaScript `x || null` on an optional string (used for `description`, `barcode`). -/
def jsStrOrNull (x : Option String) : Option String :=
  match x with
  | some s => if s = "" then none else some s
  | none => none

/-- Truthiness of an optional string (`s && …`). -/
def jsTruthyStr (x : Option String) : Bool :=
  match x with
  | some s => s ≠ ""
  | none => false

/-- Truthiness of an optional number (`if (userId)`). -/
def jsTruthyNat (x : Option Nat) : Bool :=
  match x with
  | some n => n ≠ 0
  | none => false

/-! ## Typed errors

Every `throw new Error(message)` site of the service layer becomes one
constructor, carrying the values that are in scope at that site. -/

inductive SvcError where
  /-- `'Orden no encontrada'` -/
  | orderNotFound
  /-- The five per-case transition rejections of `changeOrderStatus`
  (`'La orden debe estar en estado … para cambiar a …'`,
  `'Solo se puede volver a COTIZADO desde CANCELADO'`). -/
  | invalidTransition (currentStatusId requestedStatusId : Nat)
  /-- `'Código de estado no válido'` -/
  | invalidStatusCode (requested : Nat)
  /-- `` `Categoría con ID ${id} no encontrada` `` -/
  | categoryNotFound (categoryId : Nat)
  /-- `` `El SKU "${sku}" ya existe en el sistema` `` -/
  | duplicateSku (sku : String)
  /-- `'No hay almacenes activos en el sistema'` -/
  | noActiveWarehouse
deriving DecidableEq, Repr

/-! ## Warehouse Stock Ledger (`InventoryService`, `src/services/order.service.ts`) -/

/-- The display classification of `getInventoryList`
(`order.service.ts` lines 238–244):

```ts
let stockStatus: 'En Stock' | 'Stock Bajo' | 'Sin Stock' = 'En Stock';
if (totalStock === 0) { stockStatus = 'Sin Stock'; }
else if (totalStock < 20) { stockStatus = 'Stock Bajo'; }
```
-/
def stockStatusOf (totalStock : Int) : String :=
  if totalStock = 0 then "Sin Stock"
  else if totalStock < 20 then "Stock Bajo"
  else "En Stock"

/-- The `stockStatus` filter predicate of `getInventoryList`
(`order.service.ts` lines 272–278):

```ts
if (filters.stockStatus === 'in-stock') return item.stock > 20;
if (filters.stockStatus === 'low-stock') return item.stock > 0 && item.stock <= 20;
if (filters.stockStatus === 'out-of-stock') return item.stock === 0;
return true;
```
-/
def matchesStockFilter (filter : String) (stock : Int) : Bool :=
  if filter = "in-stock" then stock > 20
  else if filter = "low-stock" then stock > 0 && stock ≤ 20
  else if filter = "out-of-stock" then stock = 0
  else true

/-- Sum of `qtyOnHand` over the `stocks` relation rows of one variant —
the `variant.stocks.reduce((sum, stock) => sum + stock.qtyOnHand, 0)`
aggregation used by `getInventoryList` and `getInventoryDetail`. -/
def variantTotalStock (stocks : List InventoryStock) (variantId : Nat) : Int :=
  ((stocks.filter (fun s => s.variantId = variantId)).map (fun s => s.qtyOnHand)).sum

/-- Embedding of `InventoryService.updateStock` (`order.service.ts` lines 350–374):
a Prisma `upsert` on the composite key `(variantId, warehouseId)`.

```ts
update: {
  ...(data.qtyOnHand !== undefined && { qtyOnHand: data.qtyOnHand }),
  ...(data.qtyReserved !== undefined && { qtyReserved: data.qtyReserved }),
},
create: {
  variantId, warehouseId,
  qtyOnHand: data.qtyOnHand || 0,
  qtyReserved: data.qtyReserved || 0,
},
```

(`x || 0` and `x ?? 0` agree on integral quantities, so both are `getD 0`.) -/
def upsertStock (stocks : List InventoryStock) (variantId warehouseId : Nat)
    (qtyOnHand qtyReserved : Option Int) : List InventoryStock :=
  match stocks.find? (fun s => s.variantId = variantId && s.warehouseId = warehouseId) with
  | some _ =>
      stocks.map (fun s =>
        if s.variantId = variantId && s.warehouseId = warehouseId then
          { s with
            qtyOnHand := qtyOnHand.getD s.qtyOnHand
            qtyReserved := qtyReserved.getD s.qtyReserved }
        else s)
  | none =>
      stocks ++ [{ variantId := variantId, warehouseId := warehouseId,
                   qtyOnHand := qtyOnHand.getD 0, qtyReserved := qtyReserved.getD 0 }]

/-- One `updateStock` request, for reasoning about sequences of upserts. -/
structure StockUpdate where
  variantId : Nat
  warehouseId : Nat
  qtyOnHand : Option Int
  qtyReserved : Option Int
deriving DecidableEq, Repr

/-- Run a sequence of `updateStock` calls against the store. -/
def applyStockUpdates (db : DB) (ops : List StockUpdate) : DB :=
  ops.foldl
    (fun d op =>
      { d with stocks := upsertStock d.stocks op.variantId op.warehouseId op.qtyOnHand op.qtyReserved })
    db

/-- The part of the `getInventoryDetail` result the claims are about
(`order.service.ts` lines 300–345). -/
structure InventoryDetail where
  variantId : Nat
  totalStock : Int
deriving DecidableEq, Repr

/-- Embedding of `InventoryService.getInventoryDetail`: find the variant, report the sum of
`qtyOnHand` over its `stocks` relation (lines 317–320). -/
def getInventoryDetail (db : DB) (variantId : Nat) : Option InventoryDetail :=
  match db.variants.find? (fun v => v.id = variantId) with
  | none => none
  | some v => some { variantId := v.id, totalStock := variantTotalStock db.stocks v.id }

/-! ## Order Status Workflow (`OrderService.changeOrderStatus`, `part_005` lines 99–174)

This is the canonical, status-id-keyed implementation (the one with the
CANCELADO→COTIZADO reopen path).  Its `switch` documents the id↔code mapping
in comments: `1 = COTIZADO`, `2 = TRANSMITIDO`, `3 = EN_CURSO`,
`4 = CANCELADO`, `5 = ENVIADO`. -/

/-- The id↔code mapping documented by the `case` comments of
`changeOrderStatus`. -/
def statusCodeOfId : Nat → String
  | 1 => "COTIZADO"
  | 2 => "TRANSMITIDO"
  | 3 => "EN_CURSO"
  | 4 => "CANCELADO"
  | 5 => "ENVIADO"
  | _ => ""

/-- The `switch (newStatusCode)` guard of `changeOrderStatus`: `some e` when
the current status makes the requested transition illegal (the corresponding
`throw`), `none` when the transition may proceed.

```ts
switch (newStatusCode) {
  case 1: if (actualyOrder.status.id !== 4) throw …; break;             // COTIZADO
  case 2: if (actualyOrder.status.id !== 1) throw …; break;             // TRANSMITIDO
  case 3: if (actualyOrder.status.id !== 2) throw …; break;             // EN_CURSO
  case 4: if (actualyOrder.status.id !== 1 && actualyOrder.status.id !== 2) throw …; break; // CANCELADO
  case 5: if (actualyOrder.status.id !== 3) throw …; break;             // ENVIADO
  default: throw new Error('Código de estado no válido');
}
```
-/
def checkTransition (currentStatusId newStatusCode : Nat) : Option SvcError :=
  match newStatusCode with
  | 1 => if currentStatusId ≠ 4 then some (.invalidTransition currentStatusId 1) else none
  | 2 => if currentStatusId ≠ 1 then some (.invalidTransition currentStatusId 2) else none
  | 3 => if currentStatusId ≠ 2 then some (.invalidTransition currentStatusId 3) else none
  | 4 => if currentStatusId ≠ 1 ∧ currentStatusId ≠ 2 then
           some (.invalidTransition currentStatusId 4) else none
  | 5 => if currentStatusId ≠ 3 then some (.invalidTransition currentStatusId 5) else none
  | n => some (.invalidStatusCode n)

/-- The user-existence probe of `changeOrderStatus`:

```ts
let userExists = false;
if (userId) {
  const user = await prisma.user.findUnique({ where: { id: userId } });
  userExists = !!user;
}
```

Note the JavaScript truthiness guard: `userId = 0` never reaches the lookup. -/
def userExistsIn (db : DB) (userId : Option Nat) : Bool :=
  jsTruthyNat userId &&
    (match userId with
     | some uid => (db.users.find? (fun u => u.id = uid)).isSome
     | none => false)

/-- The row update `prisma.order.update` applies on a legal transition:

```ts
data: {
  statusId: newStatusCode,
  updatedByUserId: userExists ? userId : null,
  updatedAt: new Date(),
}
```
-/
def applyStatusUpdate (o : Order) (newStatusCode : Nat) (userExists : Bool)
    (userId : Option Nat) (now : Nat) : Order :=
  { o with
    statusId := newStatusCode
    updatedByUserId := if userExists then userId else none
    updatedAt := now }

/-- Embedding of `OrderService.changeOrderStatus` (`part_005` lines 99–174).  `userId` is
the optional `actingUserId`; `now` stands for `new Date()`.  Returns the new
store and the updated order (Prisma's `update` returns the updated row). -/
def changeOrderStatus (db : DB) (orderId newStatusCode : Nat) (userId : Option Nat)
    (now : Nat) : Except SvcError (DB × Order) :=
  match db.orders.find? (fun o => o.id = orderId) with
  | none => .error .orderNotFound
  | some actualOrder =>
    match checkTransition actualOrder.statusId newStatusCode with
    | some e => .error e
    | none =>
      let userExists := userExistsIn db userId
      let updated := applyStatusUpdate actualOrder newStatusCode userExists userId now
      let db' := { db with
        orders := db.orders.map (fun o => if o.id = orderId then
          applyStatusUpdate o newStatusCode userExists userId now else o) }
      .ok (db', updated)

/-- The store after a `changeOrderStatus` call: unchanged when the call
throws (the exception aborts before `prisma.order.update` runs). -/
def runChangeOrderStatus (db : DB) (orderId newStatusCode : Nat) (userId : Option Nat)
    (now : Nat) : DB :=
  match changeOrderStatus db orderId newStatusCode userId now with
  | .ok (db', _) => db'
  | .error _ => db

/-- The canonical transition table as the specification states it,
written as (from-code, to-code) pairs.  This definition follows the
specification's words; the theorems compare `changeOrderStatus` against it. -/
def specTransitionTable : List (String × String) :=
  [("CANCELADO", "COTIZADO"),
   ("COTIZADO", "TRANSMITIDO"),
   ("TRANSMITIDO", "EN_CURSO"),
   ("COTIZADO", "CANCELADO"),
   ("TRANSMITIDO", "CANCELADO"),
   ("EN_CURSO", "ENVIADO")]

/-! ## Product Lifecycle Manager (`ProductService.createProduct`,
`src/services/order.service.ts` lines 688–790) -/

/-- Input shape `CreateProductVariantDto` (`product.dto.ts`). -/
structure CreateVariantSpec where
  sku : Option String
  barcode : Option String
  variantName : Option String
  variantType : Option String
  variantValue : Option String
  initialStock : Option Int
  stock : Option Int
  warehouseId : Option Nat
deriving DecidableEq, Repr

/-- Input shape `CreateProductDto` (`product.dto.ts`). -/
structure CreateProductInput where
  name : String
  description : Option String
  sku : String
  categoryId : Nat
  price : Option Rat
  defaultPrice : Option Rat
  currency : Option String
  variants : List CreateVariantSpec
deriving DecidableEq, Repr

/-- Output shape `CreateProductResponseDto`. -/
structure CreateProductResponse where
  id : Nat
  name : String
  sku : String
  category : String
  price : Rat
  variantsCreated : Nat
deriving DecidableEq, Repr

/-- The per-variant body of the creation loop (lines 740–776): for the `i`-th
spec (0-based), resolve warehouse, SKU, display name and initial stock, insert
the `ProductVariant` row and its initial `InventoryStock` row.

```ts
const warehouseId = variant.warehouseId || defaultWarehouse.id;
const variantSku = variant.sku || `${data.sku}-${i + 1}`;
const variantName = variant.variantName ||
  (variant.variantType && variant.variantValue
    ? `${variant.variantType}: ${variant.variantValue}`
    : `Variante ${i + 1}`);
const initialStock = variant.initialStock ?? variant.stock ?? 0;
```
-/
def createVariantsLoop (tx : DB) (productId : Nat) (baseSku : String)
    (defaultWarehouseId : Nat) : List CreateVariantSpec → Nat → DB
  | [], _ => tx
  | v :: rest, i =>
    let warehouseId := jsOrNat v.warehouseId defaultWarehouseId
    let variantSku := jsOrStr v.sku (baseSku ++ "-" ++ toString (i + 1))
    let variantName := jsOrStr v.variantName
      (if jsTruthyStr v.variantType ∧ jsTruthyStr v.variantValue then
        (v.variantType.getD "") ++ ": " ++ (v.variantValue.getD "")
      else "Variante " ++ toString (i + 1))
    let initialStock := v.initialStock.getD (v.stock.getD 0)
    let vid := tx.nextVariantId
    let tx' := { tx with
      variants := tx.variants ++
        [{ id := vid, productId := productId, sku := variantSku,
           barcode := jsStrOrNull v.barcode, variantName := some variantName,
           isActive := true }]
      stocks := tx.stocks ++
        [{ variantId := vid, warehouseId := warehouseId,
           qtyOnHand := initialStock, qtyReserved := 0 }]
      nextVariantId := vid + 1 }
    createVariantsLoop tx' productId baseSku defaultWarehouseId rest (i + 1)

/-- The lowest-id active warehouse
(`findFirst({ where: { isActive: true }, orderBy: { id: 'asc' } })`). -/
def defaultWarehouse (db : DB) : Option Warehouse :=
  ((db.warehouses.filter (fun w => w.isActive)).insertionSort (fun a b => a.id ≤ b.id)).head?

/-- The `Product` row inserted first inside the `createProduct` transaction
(lines 726–737): `const productPrice = data.price ?? data.defaultPrice ?? 0`,
`currency: data.currency || 'MXN'`, `description: data.description || null`. -/
def createdProductRow (db : DB) (data : CreateProductInput) (now : Nat) : Product :=
  { id := db.nextProductId, name := data.name,
    description := jsStrOrNull data.description,
    categoryId := some data.categoryId,
    defaultPrice := data.price.getD (data.defaultPrice.getD 0),
    currency := some (jsOrStr data.currency "MXN"), isActive := true,
    createdAt := now }

/-- The store right after the `Product` insert, before the variant loop. -/
def createTxInit (db : DB) (data : CreateProductInput) (now : Nat) : DB :=
  { db with
    products := db.products ++ [createdProductRow db data now]
    nextProductId := db.nextProductId + 1 }

/-- Embedding of `ProductService.createProduct` (lines 688–790), in source order:
1. category existence check (`NotFound` before anything else),
2. global SKU-uniqueness check over the base SKU and the *explicit* variant
   SKUs, against all existing variants (`findFirst`, i.e. first match in row
   order) — before the transaction opens,
3. default-warehouse lookup,
4. transaction: insert the `Product` row, then per variant spec a
   `ProductVariant` row and its initial `InventoryStock` row.

`now` stands for the row-creation timestamp default. -/
def createProduct (db : DB) (data : CreateProductInput) (now : Nat) :
    Except SvcError (DB × CreateProductResponse) :=
  match db.categories.find? (fun c => c.id = data.categoryId) with
  | none => .error (.categoryNotFound data.categoryId)
  | some category =>
    let variantSkus := data.variants.filterMap (fun v => v.sku)
    match db.variants.find? (fun v => v.sku = data.sku ∨ v.sku ∈ variantSkus) with
    | some existing => .error (.duplicateSku existing.sku)
    | none =>
      match defaultWarehouse db with
      | none => .error .noActiveWarehouse
      | some defWh =>
        let tx1 := createVariantsLoop (createTxInit db data now) db.nextProductId
          data.sku defWh.id data.variants 0
        .ok (tx1,
          { id := db.nextProductId, name := data.name, sku := data.sku,
            category := category.name,
            price := data.price.getD (data.defaultPrice.getD 0),
            variantsCreated := data.variants.length })

/-- The store after a `createProduct` call: unchanged when the call throws
before or inside the transaction. -/
def runCreateProduct (db : DB) (data : CreateProductInput) (now : Nat) : DB :=
  match createProduct db data now with
  | .ok (db', _) => db'
  | .error _ => db

/-! ## Shared query helpers -/

/-- Prisma's case-insensitive `contains` filter. -/
def strContainsCI (s q : String) : Bool :=
  decide (q.toLower.toList <:+: s.toLower.toList)

/-- Lexicographic comparison of character lists by code point — the model of
the database collation behind `orderBy: { name: 'asc' }`. -/
def charListLe : List Char → List Char → Bool
  | [], _ => true
  | _ :: _, [] => false
  | a :: as, b :: bs =>
    if a.val.toNat < b.val.toNat then true
    else if b.val.toNat < a.val.toNat then false
    else charListLe as bs

/-- String comparison under the modelled collation. -/
def strLeColl (a b : String) : Bool :=
  charListLe a.data b.data

/-- JavaScript `Math.ceil(total / limit)` on naturals (exact for `limit > 0`; `limit = 0`
is never reached by the embedded call sites exercised below). -/
def natCeilDiv (total limit : Nat) : Nat :=
  (total + limit - 1) / limit

/-- Pagination metadata envelope (shared shape of the list endpoints). -/
structure Pagination where
  page : Nat
  limit : Nat
  total : Nat
  totalPages : Nat
  hasNextPage : Bool
  hasPrevPage : Bool
deriving DecidableEq, Repr

/-! ## `InventoryService.getInventoryList` (`order.service.ts` lines 183–295) -/

/-- One `warehouses` line of an inventory list item. -/
structure InventoryWarehouseLine where
  warehouseName : String
  qtyOnHand : Int
  qtyReserved : Int
deriving DecidableEq, Repr

/-- One inventory list item as the service shapes it (lines 246–265). -/
structure InventoryItem where
  id : Nat
  productId : Nat
  name : String
  description : Option String
  variantName : Option String
  sku : String
  barcode : Option String
  category : String
  stock : Int
  stockStatus : String
  price : Rat
  currency : Option String
  isActive : Bool
  warehouses : List InventoryWarehouseLine
deriving DecidableEq, Repr

/-- The `whereClause` of `getInventoryList`: `isActive: true` plus the
optional case-insensitive name/description search (spread in only when the
search string is truthy). -/
def inventoryProductWhere (search : Option String) (p : Product) : Bool :=
  p.isActive &&
    (if jsTruthyStr search then
      let q := search.getD ""
      strContainsCI p.name q ||
        (match p.description with
         | some d => strContainsCI d q
         | none => false)
    else true)

/-- Build one list item for a variant of a page product (lines 231–265). -/
def mkInventoryItem (db : DB) (p : Product) (v : ProductVariant) : InventoryItem :=
  let vstocks := db.stocks.filter (fun s => s.variantId = v.id)
  let totalStock := variantTotalStock db.stocks v.id
  { id := v.id, productId := p.id, name := p.name, description := p.description,
    variantName := v.variantName, sku := v.sku, barcode := v.barcode,
    category := "Sin categoría", stock := totalStock,
    stockStatus := stockStatusOf totalStock,
    price := p.defaultPrice, currency := p.currency, isActive := v.isActive,
    warehouses := vstocks.map (fun s =>
      { warehouseName := ((db.warehouses.find? (fun w => w.id = s.warehouseId)).map
          (fun w => w.name)).getD ""
        qtyOnHand := s.qtyOnHand
        qtyReserved := s.qtyReserved }) }

/-- The `inventoryItems` intermediate list of `getInventoryList`: the current
page of active products (search applied, newest first, `skip`/`take`),
flat-mapped over their active variants — before the stock-status filter. -/
def inventoryItems (db : DB) (search : Option String) (page limit : Nat) :
    List InventoryItem :=
  let pageN := jsOrNat (some page) 1
  let limitN := jsOrNat (some limit) 10
  let skip := (pageN - 1) * limitN
  let products :=
    ((db.products.filter (inventoryProductWhere search)).insertionSort
      (fun a b => b.createdAt ≤ a.createdAt)).drop skip |>.take limitN
  products.flatMap (fun p =>
    ((db.variants.filter (fun v => v.productId = p.id && v.isActive)).map
      (mkInventoryItem db p)))

/-- The stock-status filter step (lines 270–279): applied only when the
`stockStatus` filter is truthy and not `'all'`. -/
def applyStockStatusFilter (stockStatus : Option String) (items : List InventoryItem) :
    List InventoryItem :=
  if jsTruthyStr stockStatus ∧ stockStatus ≠ some "all" then
    items.filter (fun it => matchesStockFilter (stockStatus.getD "") it.stock)
  else items

/-- Result envelope of `getInventoryList`. -/
structure InventoryListResult where
  data : List InventoryItem
  pagination : Pagination
deriving DecidableEq, Repr

/-- Embedding of `InventoryService.getInventoryList` (lines 183–295).  Note the source
computes `totalPages = Math.ceil(totalVariants / limit)` over the *filtered*
item count, with no `max(1, ·)` floor and no clamping of `limit`. -/
def getInventoryList (db : DB) (search : Option String) (stockStatus : Option String)
    (page limit : Nat) : InventoryListResult :=
  let pageN := jsOrNat (some page) 1
  let limitN := jsOrNat (some limit) 10
  let filteredItems := applyStockStatusFilter stockStatus (inventoryItems db search page limit)
  let totalVariants := filteredItems.length
  let totalPages := natCeilDiv totalVariants limitN
  { data := filteredItems
    pagination :=
      { page := pageN, limit := limitN, total := totalVariants,
        totalPages := totalPages,
        hasNextPage := pageN < totalPages, hasPrevPage := pageN > 1 } }

/-! ## `ClientService` (`part_004`) -/

/-- The status code of an order, through the `status` relation. -/
def orderStatusCode (db : DB) (o : Order) : Option String :=
  (db.statuses.find? (fun s => s.id = o.statusId)).map (fun s => s.code)

/-- The `status: { code: { notIn: ['COTIZADO', 'CANCELADO'] } }` relation
filter used by `getTotalSpent` and the order counts. -/
def orderCounted (db : DB) (o : Order) : Bool :=
  match orderStatusCode db o with
  | some c => !(c = "COTIZADO" || c = "CANCELADO")
  | none => false

/-- Embedding of `ClientService.getTotalSpent` (`part_004` lines 179–200): sum of
`lineTotal` over the order items of the client's orders, excluding quotes and
cancellations. -/
def getTotalSpent (db : DB) (clientId : Nat) : Rat :=
  ((db.items.filter (fun it =>
    match db.orders.find? (fun o => o.id = it.orderId) with
    | some o => o.clientId = clientId && orderCounted db o
    | none => false)).map (fun it => it.lineTotal)).sum

/-- The per-client order count used by `getClients` / `getClientById`. -/
def clientOrderCount (db : DB) (clientId : Nat) : Nat :=
  (db.orders.filter (fun o => o.clientId = clientId && orderCounted db o)).length

/-- One row of the `getClients` response (`ClientDto` plus the two computed
statistics). -/
structure ClientRow where
  id : Nat
  name : String
  document : Option String
  isActive : Bool
  createdAt : Nat
  totalSpent : Rat
  totalOrders : Nat
deriving DecidableEq, Repr

/-- The `where` clause of `getClients`: the `active`/`inactive` flags write
`where.isActive` in sequence (so `inactive` overwrites `active`), and the
trimmed search matches name or document case-insensitively. -/
def clientWhere (active inactive : Bool) (search : Option String) (c : Client) : Bool :=
  (if inactive then c.isActive = false
   else if active then c.isActive = true
   else true) &&
  (match search with
   | some s =>
     if s.trim.length > 0 then
       let q := s.trim
       strContainsCI c.name q ||
         (match c.document with
          | some d => strContainsCI d q
          | none => false)
     else true
   | none => true)

/-- Embedding of `ClientService.getClients` (`part_004` lines 113–177): clamps the page
size to `[1, 100]`, pages the name-sorted filtered clients, and returns the
rows (with computed statistics) plus the total matching count. -/
def getClients (db : DB) (page limit : Nat) (search : Option String)
    (active inactive : Bool) : List ClientRow × Nat :=
  let take := max 1 (min limit 100)
  let skip := max 0 ((max 1 page - 1) * take)
  let matching := db.clients.filter (clientWhere active inactive search)
  let pageClients :=
    ((matching.insertionSort (fun a b => strLeColl a.name b.name)).drop skip).take take
  (pageClients.map (fun c =>
    { id := c.id, name := c.name, document := c.document, isActive := c.isActive,
      createdAt := c.createdAt, totalSpent := getTotalSpent db c.id,
      totalOrders := clientOrderCount db c.id }),
   matching.length)

/-- Result envelope of the `GET /api/clients` handler. -/
structure ClientsPage where
  data : List ClientRow
  pagination : Pagination
deriving DecidableEq, Repr

/-- The `GET /api/clients` handler (`client.controller.ts` lines 14–53):
calls `getClients` and computes `totalPages = Math.max(1, Math.ceil(total /
limit))` — over the *unclamped* `limit` query value. -/
def getClientsHandler (db : DB) (page limit : Nat) (search : Option String)
    (active inactive : Bool) : ClientsPage :=
  let res := getClients db page limit search active inactive
  let total := res.2
  let totalPages := max 1 (natCeilDiv total limit)
  { data := res.1
    pagination :=
      { page := page, limit := limit, total := total, totalPages := totalPages,
        hasNextPage := page < totalPages, hasPrevPage := page > 1 } }

/-! ## `ClientService.getClientPriceHistory` (`part_004` lines 205–267) -/

/-- Does the item's variant belong to the given product
(the `variant: { productId }` relation filter)? -/
def variantHasProduct (db : DB) (variantId productId : Nat) : Bool :=
  match db.variants.find? (fun v => v.id = variantId) with
  | some v => v.productId = productId
  | none => false

/-- One price-history entry as the service shapes it (lines 242–263). -/
structure PriceEntry where
  orderId : Nat
  orderCode : String
  orderDate : Nat
  orderStatus : String
  variantId : Nat
  variantName : Option String
  sku : String
  quantity : Int
  unitPrice : Rat
  listPrice : Option Rat
  discount : Rat
  discountPercent : Rat
  lineTotal : Rat
  currency : Option String
deriving DecidableEq, Repr

/-- Build one price-history entry from an order and one of its items.

The source guards on `item.listPrice ?`: for a Prisma `Decimal` column this
is a *null* check — a present `Decimal` of value `0` is a truthy object, so
the `discountPercent` division branch runs with divisor `0` in that case
(JavaScript float division; here `Rat` division, which totalises `x / 0 = 0`). -/
def mkPriceEntry (db : DB) (o : Order) (it : OrderItem) : PriceEntry :=
  let variant := db.variants.find? (fun v => v.id = it.variantId)
  { orderId := o.id, orderCode := o.code, orderDate := o.createdAt,
    orderStatus := ((db.statuses.find? (fun s => s.id = o.statusId)).map
      (fun s => s.label)).getD ""
    variantId := it.variantId
    variantName := variant.bind (fun v => v.variantName)
    sku := (variant.map (fun v => v.sku)).getD ""
    quantity := it.qty
    unitPrice := it.unitPrice
    listPrice := it.listPrice
    discount :=
      match it.listPrice with
      | some lp => lp - it.unitPrice
      | none => 0
    discountPercent :=
      match it.listPrice with
      | some lp => ((lp - it.unitPrice) / lp) * 100
      | none => 0
    lineTotal := it.lineTotal
    currency := it.currency }

/-- The item filter of the price-history query: items of the given order
whose variant belongs to the given product. -/
def priceHistoryItems (db : DB) (productId : Nat) (o : Order) : List OrderItem :=
  db.items.filter (fun it => it.orderId = o.id && variantHasProduct db it.variantId productId)

/-- Embedding of `ClientService.getClientPriceHistory` (`part_004` lines 205–267): the
client's orders having at least one item of the product (no status
exclusion), newest first, flat-mapped over their matching items. -/
def getClientPriceHistory (db : DB) (clientId productId : Nat) : List PriceEntry :=
  let orders := (db.orders.filter (fun o =>
    o.clientId = clientId &&
      db.items.any (fun it => it.orderId = o.id && variantHasProduct db it.variantId productId)))
    |>.insertionSort (fun a b => b.createdAt ≤ a.createdAt)
  orders.flatMap (fun o => (priceHistoryItems db productId o).map (mkPriceEntry db o))

/-! ## Support definitions for the theorems -/

/-- Severity rank of the display classification, for stating monotonicity:
`Sin Stock < Stock Bajo < En Stock`.  (Phrasing device for the claim; not
part of the source.) -/
def statusRank (s : String) : Nat :=
  if s = "Sin Stock" then 0
  else if s = "Stock Bajo" then 1
  else 2

/-- An empty store. -/
def emptyDB : DB :=
  { categories := [], products := [], variants := [], warehouses := [],
    stocks := [], statuses := [], orders := [], items := [], clients := [],
    users := [], nextProductId := 1, nextVariantId := 1 }

/-- The five order statuses with the ids the workflow code documents. -/
def canonicalStatuses : List OrderStatus :=
  [{ id := 1, code := "COTIZADO", label := "Cotizado", sortOrder := 1, isActive := true },
   { id := 2, code := "TRANSMITIDO", label := "Transmitido", sortOrder := 2, isActive := true },
   { id := 3, code := "EN_CURSO", label := "En Curso", sortOrder := 3, isActive := true },
   { id := 4, code := "CANCELADO", label := "Cancelado", sortOrder := 4, isActive := true },
   { id := 5, code := "ENVIADO", label := "Enviado", sortOrder := 5, isActive := true }]

/-- Fixture: one quoted order, one user, for the workflow witnesses. -/
def wfOrder : Order :=
  { id := 1, code := "PED-1", clientId := 1, statusId := 1, currency := none,
    createdAt := 0, updatedAt := 0, createdByUserId := none,
    updatedByUserId := none, isDeleted := false }

/-- Fixture store for the workflow witnesses. -/
def wfDB : DB :=
  { emptyDB with statuses := canonicalStatuses, orders := [wfOrder],
                 users := [{ id := 7 }] }

/-- Fixture store for the stock-ledger witnesses: one variant, no stock yet. -/
def ledgerDB : DB :=
  { emptyDB with
    variants := [{ id := 1, productId := 1, sku := "SKU-1", barcode := none,
                   variantName := none, isActive := true }] }

/-- A variant spec with every optional field absent. -/
def specAllNone : CreateVariantSpec :=
  { sku := none, barcode := none, variantName := none, variantType := none,
    variantValue := none, initialStock := none, stock := none, warehouseId := none }

/-- Fixture store for the duplicate-SKU counterexample: an existing variant
with SKU `"A"` but no category rows at all. -/
def dupNoCatDB : DB :=
  { emptyDB with
    variants := [{ id := 1, productId := 1, sku := "A", barcode := none,
                   variantName := none, isActive := true }] }

/-- Fixture store for the duplicate-SKU witness: same variant, but the
referenced category exists (and so does a warehouse). -/
def dupDB : DB :=
  { dupNoCatDB with
    categories := [{ id := 1, name := "Cat", isActive := true }],
    warehouses := [{ id := 1, name := "W", isActive := true }] }

/-- A `createProduct` input whose base SKU `"A"` collides with the existing
variant of `dupNoCatDB` / `dupDB`. -/
def dupInput : CreateProductInput :=
  { name := "P", description := none, sku := "A", categoryId := 1,
    price := some 10, defaultPrice := none, currency := none,
    variants := [specAllNone] }

/-- Fixture store for the generated-SKU witness: a category and a warehouse,
no variants yet. -/
def genDB : DB :=
  { emptyDB with
    categories := [{ id := 1, name := "Cat", isActive := true }],
    warehouses := [{ id := 1, name := "W", isActive := true }] }

/-- A `createProduct` input with three variant specs, none carrying an
explicit SKU. -/
def genInput : CreateProductInput :=
  { name := "P", description := none, sku := "BASE", categoryId := 1,
    price := some 10, defaultPrice := none, currency := none,
    variants := [specAllNone, specAllNone, specAllNone] }

/-- The product of the inventory-list fixture. -/
def invProduct : Product :=
  { id := 1, name := "P", description := none, categoryId := none,
    defaultPrice := 10, currency := none, isActive := true, createdAt := 0 }

/-- The variant of the inventory-list fixture. -/
def invVariant : ProductVariant :=
  { id := 1, productId := 1, sku := "S", barcode := none,
    variantName := none, isActive := true }

/-- Fixture store for the inventory-list witnesses: one active product with
one active variant holding exactly 20 units in one warehouse. -/
def invDB : DB :=
  { emptyDB with
    products := [invProduct],
    variants := [invVariant],
    warehouses := [{ id := 1, name := "W", isActive := true }],
    stocks := [{ variantId := 1, warehouseId := 1, qtyOnHand := 20, qtyReserved := 0 }] }

/-- The single inventory line item of `invDB`. -/
def invItem : InventoryItem :=
  mkInventoryItem invDB invProduct invVariant

/-- The order of the zero-list-price fixture. -/
def zlpOrder : Order :=
  { id := 1, code := "PED-1", clientId := 1, statusId := 1, currency := none,
    createdAt := 10, updatedAt := 10, createdByUserId := none,
    updatedByUserId := none, isDeleted := false }

/-- The item of the zero-list-price fixture: `listPrice` present but zero. -/
def zlpItem : OrderItem :=
  { id := 1, orderId := 1, variantId := 1, qty := 1, unitPrice := 5,
    listPrice := some 0, lineTotal := 5, currency := none }

/-- Fixture store for the price-history counterexample: one order of client 1
with one item of product 1 whose `listPrice` is present but zero. -/
def zeroListPriceDB : DB :=
  { emptyDB with
    statuses := canonicalStatuses,
    clients := [{ id := 1, name := "C", document := none, isActive := true, createdAt := 0 }],
    orders := [zlpOrder],
    variants := [{ id := 1, productId := 1, sku := "S", barcode := none,
                   variantName := none, isActive := true }],
    items := [zlpItem] }

/-- The descending-creation-date order used by the price-history query is a
total relation. -/
instance : IsTotal Order (fun a b => b.createdAt ≤ a.createdAt) :=
  ⟨fun a b => le_total b.createdAt a.createdAt⟩

/-- The descending-creation-date order used by the price-history query is
transitive. -/
instance : IsTrans Order (fun a b => b.createdAt ≤ a.createdAt) :=
  ⟨fun _ _ _ hab hbc => le_trans hbc hab⟩

/-- Fixture store with 25 active clients, for the pagination scenario. -/
def clientsDB : DB :=
  { emptyDB with
    clients := (List.range 25).map (fun i =>
      { id := i + 1, name := "C", document := none,
        isActive := true, createdAt := 0 }) }

/-! ## Theorems -/

/-- C3: the stock classification is exhaustive and monotonic over all
non-negative integer quantities: a total stock of 0 classifies as
`'Sin Stock'`, every quantity from 1 through 19 as `'Stock Bajo'`, and every
quantity of 20 or more as `'En Stock'`. -/
theorem classify_exhaustive_monotone :
    (∀ n : Int,
      (n = 0 → stockStatusOf n = "Sin Stock") ∧
      (1 ≤ n → n ≤ 19 → stockStatusOf n = "Stock Bajo") ∧
      (20 ≤ n → stockStatusOf n = "En Stock")) ∧
    (∀ m n : Int, 0 ≤ m → m ≤ n →
      statusRank (stockStatusOf m) ≤ statusRank (stockStatusOf n)) := by
  constructor
  · intro n
    refine ⟨fun h0 => ?_, fun h1 h2 => ?_, fun h3 => ?_⟩ <;>
      unfold stockStatusOf <;> split_ifs <;> first | rfl | omega
  · intro m n hm hmn
    unfold stockStatusOf
    split_ifs <;> first | decide | omega

/-- Witness for C3 at concrete quantities. -/
theorem classify_exhaustive_monotone_witness :
    stockStatusOf 0 = "Sin Stock" ∧ stockStatusOf 7 = "Stock Bajo" ∧
    stockStatusOf 20 = "En Stock" ∧
    statusRank (stockStatusOf 5) ≤ statusRank (stockStatusOf 25) :=
  ⟨(classify_exhaustive_monotone.1 0).1 rfl,
   (classify_exhaustive_monotone.1 7).2.1 (by decide) (by decide),
   (classify_exhaustive_monotone.1 20).2.2 (by decide),
   classify_exhaustive_monotone.2 5 25 (by decide) (by decide)⟩

/-- C5: `updateStock` on an existing `(variantId, warehouseId)` row with both
quantities omitted changes nothing; with only one quantity supplied it
changes exactly that field and leaves the other untouched (and every other
row untouched); on an absent row it creates it, defaulting omitted
quantities to 0. -/
theorem updateStock_partial_update_semantics (stocks : List InventoryStock)
    (vid wid : Nat) :
    ((stocks.find? (fun s => s.variantId = vid && s.warehouseId = wid)).isSome →
      upsertStock stocks vid wid none none = stocks ∧
      (∀ q : Int, upsertStock stocks vid wid (some q) none =
        stocks.map (fun s =>
          if s.variantId = vid && s.warehouseId = wid then
            { s with qtyOnHand := q } else s)) ∧
      (∀ r : Int, upsertStock stocks vid wid none (some r) =
        stocks.map (fun s =>
          if s.variantId = vid && s.warehouseId = wid then
            { s with qtyReserved := r } else s))) ∧
    (stocks.find? (fun s => s.variantId = vid && s.warehouseId = wid) = none →
      ∀ q r : Option Int, upsertStock stocks vid wid q r =
        stocks ++ [{ variantId := vid, warehouseId := wid,
                     qtyOnHand := q.getD 0, qtyReserved := r.getD 0 }]) := by
  constructor
  · intro h
    obtain ⟨s0, hs0⟩ := Option.isSome_iff_exists.mp h
    refine ⟨?_, fun q => ?_, fun r => ?_⟩ <;> simp only [upsertStock, hs0]
    · have hid : ∀ s ∈ stocks,
          (if (s.variantId = vid && s.warehouseId = wid) = true then
            { s with qtyOnHand := (none : Option Int).getD s.qtyOnHand,
                     qtyReserved := (none : Option Int).getD s.qtyReserved }
          else s) = id s := by
        intro s _
        cases s
        simp
      rw [List.map_congr_left hid, List.map_id]
    · rfl
    · rfl
  · intro h q r
    simp [upsertStock, h]

/-- Witness for C5 on a one-row ledger. -/
theorem updateStock_partial_update_semantics_witness :
    (upsertStock [⟨1, 1, 5, 2⟩] 1 1 none none = [⟨1, 1, 5, 2⟩]) ∧
    (upsertStock [⟨1, 1, 5, 2⟩] 1 2 (some 3) none =
      [⟨1, 1, 5, 2⟩, ⟨1, 2, 3, 0⟩]) :=
  ⟨((updateStock_partial_update_semantics [⟨1, 1, 5, 2⟩] 1 1).1 (by decide)).1,
   (updateStock_partial_update_semantics [⟨1, 1, 5, 2⟩] 1 2).2 (by decide) (some 3) none⟩

/-- C4: after any sequence of `updateStock` upserts, the total stock
`getInventoryDetail` reports for a variant equals the sum of `qtyOnHand`
over every `InventoryStock` row of that variant. -/
theorem totalStock_eq_sum_after_upserts (db : DB) (ops : List StockUpdate)
    (vid : Nat) (d : InventoryDetail)
    (h : getInventoryDetail (applyStockUpdates db ops) vid = some d) :
    d.totalStock =
      (((applyStockUpdates db ops).stocks.filter (fun s => s.variantId = vid)).map
        (fun s => s.qtyOnHand)).sum := by
  unfold getInventoryDetail at h
  split at h
  · exact absurd h (by simp)
  · next v hv =>
    obtain rfl := Option.some.inj h
    have hid : v.id = vid := by simpa using List.find?_some hv
    simp [variantTotalStock, hid]

/-- Witness for C4: two upserts into different warehouses of variant 1. -/
theorem totalStock_eq_sum_after_upserts_witness :
    getInventoryDetail (applyStockUpdates ledgerDB
      [⟨1, 1, some 15, none⟩, ⟨1, 2, some 10, none⟩]) 1 = some ⟨1, 25⟩ ∧
    (⟨1, 25⟩ : InventoryDetail).totalStock =
      (((applyStockUpdates ledgerDB
          [⟨1, 1, some 15, none⟩, ⟨1, 2, some 10, none⟩]).stocks.filter
        (fun s => s.variantId = 1)).map (fun s => s.qtyOnHand)).sum :=
  ⟨by decide,
   totalStock_eq_sum_after_upserts ledgerDB
     [⟨1, 1, some 15, none⟩, ⟨1, 2, some 10, none⟩] 1 ⟨1, 25⟩ (by decide)⟩

/-- Updating rows in place by a key-preserving function commutes with
looking the key up. -/
theorem find?_map_keyed_update (l : List Order) (oid : Nat) (g : Order → Order)
    (hg : ∀ o, (g o).id = o.id) :
    (l.map (fun o => if o.id = oid then g o else o)).find? (fun o => o.id = oid) =
      (l.find? (fun o => o.id = oid)).map g := by
  induction l with
  | nil => rfl
  | cons a t ih =>
    by_cases h : a.id = oid
    · simp [List.find?_cons, h, hg]
    · simp [List.find?_cons, h, ih]

/-- Behaviour of `changeOrderStatus` when the guard admits the transition. -/
theorem changeOrderStatus_ok {db : DB} {oid toId : Nat} {uid : Option Nat}
    {now : Nat} {o : Order}
    (hfind : db.orders.find? (fun x => x.id = oid) = some o)
    (hchk : checkTransition o.statusId toId = none) :
    changeOrderStatus db oid toId uid now =
      .ok ({ db with orders := db.orders.map (fun x =>
               if x.id = oid then
                 applyStatusUpdate x toId (userExistsIn db uid) uid now
               else x) },
           applyStatusUpdate o toId (userExistsIn db uid) uid now) := by
  simp [changeOrderStatus, hfind, hchk]

/-- Behaviour of `changeOrderStatus` when the guard rejects the transition. -/
theorem changeOrderStatus_err {db : DB} {oid toId : Nat} {uid : Option Nat}
    {now : Nat} {o : Order} {e : SvcError}
    (hfind : db.orders.find? (fun x => x.id = oid) = some o)
    (hchk : checkTransition o.statusId toId = some e) :
    changeOrderStatus db oid toId uid now = .error e := by
  simp [changeOrderStatus, hfind, hchk]

/-- Packaged success conclusion used by the per-pair case analysis. -/
theorem changeOrderStatus_ok_full {db : DB} {oid toId : Nat} {uid : Option Nat}
    {now : Nat} {o : Order}
    (hfind : db.orders.find? (fun x => x.id = oid) = some o)
    (hchk : checkTransition o.statusId toId = none) :
    ∃ db' o', changeOrderStatus db oid toId uid now = .ok (db', o') ∧
      o'.statusId = toId ∧
      db'.orders.find? (fun x => x.id = oid) = some o' := by
  refine ⟨_, _, changeOrderStatus_ok hfind hchk, rfl, ?_⟩
  show (db.orders.map (fun x => if x.id = oid then
          applyStatusUpdate x toId (userExistsIn db uid) uid now else x)).find?
        (fun x => x.id = oid) = _
  rw [find?_map_keyed_update db.orders oid
        (fun x => applyStatusUpdate x toId (userExistsIn db uid) uid now)
        (fun _ => rfl), hfind]
  rfl

/-- Packaged failure conclusion used by the per-pair case analysis. -/
theorem changeOrderStatus_err_full {db : DB} {oid toId : Nat} {uid : Option Nat}
    {now : Nat} {o : Order} {e : SvcError}
    (hfind : db.orders.find? (fun x => x.id = oid) = some o)
    (hchk : checkTransition o.statusId toId = some e) :
    changeOrderStatus db oid toId uid now = .error e ∧
      runChangeOrderStatus db oid toId uid now = db := by
  have h := @changeOrderStatus_err db oid toId uid now o e hfind hchk
  exact ⟨h, by simp [runChangeOrderStatus, h]⟩

/-- C1: for an existing order whose current status and the requested status
both lie in the five-status alphabet, `changeOrderStatus` succeeds exactly on
the pairs of the canonical transition table (CANCELADO→COTIZADO,
COTIZADO→TRANSMITIDO, TRANSMITIDO→EN_CURSO, COTIZADO→CANCELADO,
TRANSMITIDO→CANCELADO, EN_CURSO→ENVIADO), persisting the requested status;
on every other pair it fails with the invalid-transition error carrying the
current and requested status ids, and the persisted state is unchanged. -/
theorem changeOrderStatus_matches_transition_table (db : DB)
    (oid fromId toId : Nat) (uid : Option Nat) (now : Nat) (o : Order)
    (hfind : db.orders.find? (fun x => x.id = oid) = some o)
    (hstat : o.statusId = fromId)
    (hfrom : fromId ∈ [1, 2, 3, 4, 5]) (hto : toId ∈ [1, 2, 3, 4, 5]) :
    ((statusCodeOfId fromId, statusCodeOfId toId) ∈ specTransitionTable →
      ∃ db' o', changeOrderStatus db oid toId uid now = .ok (db', o') ∧
        o'.statusId = toId ∧
        db'.orders.find? (fun x => x.id = oid) = some o') ∧
    ((statusCodeOfId fromId, statusCodeOfId toId) ∉ specTransitionTable →
      changeOrderStatus db oid toId uid now =
        .error (.invalidTransition fromId toId) ∧
      runChangeOrderStatus db oid toId uid now = db) := by
  fin_cases hfrom <;> fin_cases hto <;>
    refine ⟨fun hmem => ?_, fun hnmem => ?_⟩ <;>
    first
      | exact absurd hmem (by decide)
      | exact absurd (by decide) hnmem
      | exact changeOrderStatus_ok_full hfind (by simp [hstat, checkTransition])
      | exact changeOrderStatus_err_full hfind (by simp [hstat, checkTransition])

/-- Witness for C1: the fixture quote (status COTIZADO) and the requested
status TRANSMITIDO. -/
theorem changeOrderStatus_matches_transition_table_witness :
    ((statusCodeOfId 1, statusCodeOfId 2) ∈ specTransitionTable →
      ∃ db' o', changeOrderStatus wfDB 1 2 none 5 = .ok (db', o') ∧
        o'.statusId = 2 ∧
        db'.orders.find? (fun x => x.id = 1) = some o') ∧
    ((statusCodeOfId 1, statusCodeOfId 2) ∉ specTransitionTable →
      changeOrderStatus wfDB 1 2 none 5 = .error (.invalidTransition 1 2) ∧
      runChangeOrderStatus wfDB 1 2 none 5 = wfDB) :=
  changeOrderStatus_matches_transition_table wfDB 1 1 2 none 5 wfOrder
    (by decide) rfl (by decide) (by decide)

/-- C9: on a legal transition, an `actingUserId` that references no existing
user does not make `changeOrderStatus` fail — the update proceeds and the
persisted `updatedByUserId` is `null`; an `actingUserId` that does reference
an existing user is persisted as `updatedByUserId`.  (`SERIAL` user ids are
positive, whence the `u ≠ 0` hypothesis: `if (userId)` short-circuits on 0.) -/
theorem changeOrderStatus_unknown_user_attribution (db : DB)
    (oid toId : Nat) (now : Nat) (o : Order) (u : Nat)
    (hfind : db.orders.find? (fun x => x.id = oid) = some o)
    (hchk : checkTransition o.statusId toId = none)
    (hu : u ≠ 0) :
    (db.users.find? (fun x => x.id = u) = none →
      ∃ db' o', changeOrderStatus db oid toId (some u) now = .ok (db', o') ∧
        o'.updatedByUserId = none ∧
        db'.orders.find? (fun x => x.id = oid) = some o') ∧
    (∀ usr, db.users.find? (fun x => x.id = u) = some usr →
      ∃ db' o', changeOrderStatus db oid toId (some u) now = .ok (db', o') ∧
        o'.updatedByUserId = some u ∧
        db'.orders.find? (fun x => x.id = oid) = some o') := by
  constructor
  · intro hnone
    obtain ⟨db', o', hok, _, hfind'⟩ :=
      @changeOrderStatus_ok_full db oid toId (some u) now o hfind hchk
    refine ⟨db', o', hok, ?_, hfind'⟩
    have : userExistsIn db (some u) = false := by
      simp [userExistsIn, jsTruthyNat, hnone]
    rw [changeOrderStatus_ok hfind hchk] at hok
    obtain ⟨rfl, rfl⟩ : db' = _ ∧ o' = _ := by
      constructor <;> [exact (Prod.mk.injEq _ _ _ _ ▸ Except.ok.inj hok).1.symm;
                       exact (Prod.mk.injEq _ _ _ _ ▸ Except.ok.inj hok).2.symm]
    simp [applyStatusUpdate, this]
  · intro usr hsome
    obtain ⟨db', o', hok, _, hfind'⟩ :=
      @changeOrderStatus_ok_full db oid toId (some u) now o hfind hchk
    refine ⟨db', o', hok, ?_, hfind'⟩
    have : userExistsIn db (some u) = true := by
      simp [userExistsIn, jsTruthyNat, hu, hsome]
    rw [changeOrderStatus_ok hfind hchk] at hok
    obtain ⟨rfl, rfl⟩ : db' = _ ∧ o' = _ := by
      constructor <;> [exact (Prod.mk.injEq _ _ _ _ ▸ Except.ok.inj hok).1.symm;
                       exact (Prod.mk.injEq _ _ _ _ ▸ Except.ok.inj hok).2.symm]
    simp [applyStatusUpdate, this]

/-- Witness for C9: acting user 9 does not exist in `wfDB`, acting user 7
does. -/
theorem changeOrderStatus_unknown_user_attribution_witness :
    ((wfDB.users.find? (fun x => x.id = 9) = none →
      ∃ db' o', changeOrderStatus wfDB 1 2 (some 9) 5 = .ok (db', o') ∧
        o'.updatedByUserId = none ∧
        db'.orders.find? (fun x => x.id = 1) = some o') ∧
    (∀ usr, wfDB.users.find? (fun x => x.id = 9) = some usr →
      ∃ db' o', changeOrderStatus wfDB 1 2 (some 9) 5 = .ok (db', o') ∧
        o'.updatedByUserId = some 9 ∧
        db'.orders.find? (fun x => x.id = 1) = some o')) :=
  changeOrderStatus_unknown_user_attribution wfDB 1 2 5 wfOrder 9
    (by decide) (by decide) (by decide)

/-- The SKUs produced by the variant-creation loop: explicit-SKU-free specs
starting at index `i` receive `base-(i+1)`, `base-(i+2)`, … in input order. -/
theorem createVariantsLoop_sku_map (pid : Nat) (base : String) (wh : Nat)
    (specs : List CreateVariantSpec) (h : ∀ v ∈ specs, v.sku = none) :
    ∀ (i : Nat) (tx : DB),
      (createVariantsLoop tx pid base wh specs i).variants.map (fun v => v.sku) =
        tx.variants.map (fun v => v.sku) ++
          (List.range' (i + 1) specs.length).map
            (fun k => base ++ "-" ++ toString k) := by
  induction specs with
  | nil => intro i tx; simp [createVariantsLoop]
  | cons v rest ih =>
    intro i tx
    have hv : v.sku = none := h v (by simp)
    have hrest : ∀ x ∈ rest, x.sku = none := fun x hx => h x (by simp [hx])
    rw [createVariantsLoop, ih hrest]
    simp [hv, jsOrStr, List.range'_succ]

/-- C6: with a category, no SKU collision and an active warehouse in place,
creating a product whose `N` variant specs all omit the SKU yields exactly
`N` new variants whose SKUs are `base-1` … `base-N`, assigned in input
order. -/
theorem createProduct_generates_sequential_skus (db : DB)
    (data : CreateProductInput) (now : Nat) (cat : Category) (wh : Warehouse)
    (hcat : db.categories.find? (fun c => c.id = data.categoryId) = some cat)
    (hnodup : db.variants.find? (fun v =>
      v.sku = data.sku ∨ v.sku ∈ data.variants.filterMap (fun s => s.sku)) = none)
    (hwh : defaultWarehouse db = some wh)
    (hskus : ∀ v ∈ data.variants, v.sku = none) :
    ∃ db' resp, createProduct db data now = .ok (db', resp) ∧
      db'.variants.length = db.variants.length + data.variants.length ∧
      (db'.variants.drop db.variants.length).map (fun v => v.sku) =
        (List.range' 1 data.variants.length).map
          (fun k => data.sku ++ "-" ++ toString k) := by
  have hmap := createVariantsLoop_sku_map db.nextProductId data.sku wh.id
    data.variants hskus 0 (createTxInit db data now)
  refine ⟨createVariantsLoop (createTxInit db data now) db.nextProductId
      data.sku wh.id data.variants 0,
    { id := db.nextProductId, name := data.name, sku := data.sku,
      category := cat.name,
      price := data.price.getD (data.defaultPrice.getD 0),
      variantsCreated := data.variants.length },
    ?_, ?_, ?_⟩
  · simp only [createProduct, hcat, hnodup, hwh]
  · have hlen := congrArg List.length hmap
    simpa [createTxInit] using hlen
  · rw [List.map_drop, hmap]
    simp [createTxInit, List.drop_left]

/-- Witness for C6: `genInput` has three specs, all without explicit SKU. -/
theorem createProduct_generates_sequential_skus_witness :
    ∃ db' resp, createProduct genDB genInput 0 = .ok (db', resp) ∧
      db'.variants.length = genDB.variants.length + genInput.variants.length ∧
      (db'.variants.drop genDB.variants.length).map (fun v => v.sku) =
        (List.range' 1 genInput.variants.length).map
          (fun k => genInput.sku ++ "-" ++ toString k) :=
  createProduct_generates_sequential_skus genDB genInput 0
    ⟨1, "Cat", true⟩ ⟨1, "W", true⟩ (by decide) (by decide) (by decide) (by decide)

/-- C2 (amended): when the referenced category exists and the base SKU or an
explicit variant SKU collides with an existing variant, `createProduct`
fails with the duplicate-SKU error naming a colliding SKU, before the
transaction opens, and persists nothing. -/
theorem createProduct_duplicate_sku_rejected (db : DB)
    (data : CreateProductInput) (now : Nat) (cat : Category)
    (hcat : db.categories.find? (fun c => c.id = data.categoryId) = some cat)
    (hdup : ∃ v ∈ db.variants,
      v.sku = data.sku ∨ v.sku ∈ data.variants.filterMap (fun s => s.sku)) :
    ∃ v, v ∈ db.variants ∧
      (v.sku = data.sku ∨ v.sku ∈ data.variants.filterMap (fun s => s.sku)) ∧
      createProduct db data now = .error (.duplicateSku v.sku) ∧
      runCreateProduct db data now = db := by
  have hsome : (db.variants.find? (fun v =>
      v.sku = data.sku ∨ v.sku ∈ data.variants.filterMap (fun s => s.sku))).isSome := by
    rw [List.find?_isSome]
    obtain ⟨v, hv, hcase⟩ := hdup
    exact ⟨v, hv, by simpa using hcase⟩
  obtain ⟨u, hu⟩ := Option.isSome_iff_exists.mp hsome
  have hpred := List.find?_some hu
  have hmem := List.mem_of_find?_eq_some hu
  refine ⟨u, hmem, by simpa using hpred, ?_, ?_⟩
  · simp only [createProduct, hcat, hu]
  · simp only [runCreateProduct, createProduct, hcat, hu]

/-- Counterexample to C2 as stated: in `dupNoCatDB` the base SKU `"A"`
already belongs to an existing variant, yet `createProduct` fails with the
*category-not-found* error, not the duplicate-SKU error, because the
category check runs first. -/
theorem createProduct_category_error_shadows_duplicate_sku :
    createProduct dupNoCatDB dupInput 0 = .error (.categoryNotFound 1) ∧
    dupNoCatDB.variants.map (fun v => v.sku) = ["A"] ∧
    dupInput.sku = "A" := ⟨rfl, rfl, rfl⟩

/-- Witness for the amended C2 on `dupDB` (category present, SKU collides). -/
theorem createProduct_duplicate_sku_rejected_witness :
    ∃ v, v ∈ dupDB.variants ∧
      (v.sku = dupInput.sku ∨ v.sku ∈ dupInput.variants.filterMap (fun s => s.sku)) ∧
      createProduct dupDB dupInput 0 = .error (.duplicateSku v.sku) ∧
      runCreateProduct dupDB dupInput 0 = dupDB :=
  createProduct_duplicate_sku_rejected dupDB dupInput 0 ⟨1, "Cat", true⟩
    (by decide) ⟨⟨1, 1, "A", none, none, true⟩, by decide, by decide⟩

/-- C10: the inventory list's display classification and its `stockStatus`
filter disagree at the boundary — an item with total stock exactly 20 is
displayed as `'En Stock'`, yet the `'in-stock'` filter (stock > 20) excludes
it while the `'low-stock'` filter (0 < stock ≤ 20) includes it. -/
theorem inventory_filter_boundary_mismatch (db : DB) (page limit : Nat)
    (it : InventoryItem) (hmem : it ∈ inventoryItems db none page limit)
    (hstock : it.stock = 20) :
    it.stockStatus = "En Stock" ∧
    it ∉ (getInventoryList db none (some "in-stock") page limit).data ∧
    it ∈ (getInventoryList db none (some "low-stock") page limit).data := by
  have hss : it.stockStatus = stockStatusOf it.stock := by
    obtain ⟨p, hp, hit⟩ := List.mem_flatMap.mp hmem
    obtain ⟨v, hv, rfl⟩ := List.mem_map.mp hit
    rfl
  refine ⟨by rw [hss, hstock]; rfl, ?_, ?_⟩
  · intro hin
    have h2 : it ∈ (inventoryItems db none page limit).filter
        (fun x => matchesStockFilter "in-stock" x.stock) := by
      simpa [getInventoryList, applyStockStatusFilter, jsTruthyStr] using hin
    have h3 := (List.mem_filter.mp h2).2
    rw [hstock] at h3
    exact absurd h3 (by decide)
  · have h2 : it ∈ (inventoryItems db none page limit).filter
        (fun x => matchesStockFilter "low-stock" x.stock) :=
      List.mem_filter.mpr ⟨hmem, by rw [hstock]; decide⟩
    simpa [getInventoryList, applyStockStatusFilter, jsTruthyStr] using h2

/-- Witness for C10 on the 20-unit fixture. -/
theorem inventory_filter_boundary_mismatch_witness :
    invItem ∈ inventoryItems invDB none 1 10 ∧ invItem.stock = 20 ∧
    (invItem.stockStatus = "En Stock" ∧
     invItem ∉ (getInventoryList invDB none (some "in-stock") 1 10).data ∧
     invItem ∈ (getInventoryList invDB none (some "low-stock") 1 10).data) :=
  ⟨by decide, by decide,
   inventory_filter_boundary_mismatch invDB 1 10 invItem (by decide) (by decide)⟩

/-- Counterexample to C8 as stated: `getInventoryList` neither clamps the
page size (a requested limit of 200 is used as-is) nor floors `totalPages`
at 1 — over an empty store it reports `totalPages = 0`, not
`max(1, ceil(0/200)) = 1`. -/
theorem getInventoryList_totalPages_zero :
    (getInventoryList emptyDB none none 1 200).pagination.totalPages = 0 ∧
    (getInventoryList emptyDB none none 1 200).pagination.limit = 200 := by
  exact ⟨rfl, rfl⟩

/-- C8 (amended): `getClients` clamps the page size to `[1, 100]` and its
controller floors `totalPages` at 1; in particular `getClients(page = 2,
limit = 10)` over 25 clients returns exactly 10 rows with `totalPages = 3`,
`hasNextPage` and `hasPrevPage` — but `getInventoryList` does neither (see
the counterexample). -/
theorem getClients_pagination_scenario :
    ((getClientsHandler clientsDB 2 10 none false false).data.length = 10 ∧
     (getClientsHandler clientsDB 2 10 none false false).pagination.total = 25 ∧
     (getClientsHandler clientsDB 2 10 none false false).pagination.totalPages = 3 ∧
     (getClientsHandler clientsDB 2 10 none false false).pagination.hasNextPage = true ∧
     (getClientsHandler clientsDB 2 10 none false false).pagination.hasPrevPage = true) ∧
    (∀ (db : DB) (page limit : Nat) (search : Option String) (a i : Bool),
      (getClients db page limit search a i).1.length ≤ max 1 (min limit 100)) := by
  constructor
  · exact ⟨by decide, by decide, by decide, by decide, by decide⟩
  · intro db page limit search a i
    simp only [getClients, List.length_map, List.length_take]
    omega

/-- A list of equal naturals is sorted under `≥`. -/
theorem sorted_ge_of_const {L : List Nat} {c : Nat} (h : ∀ x ∈ L, x = c) :
    L.Sorted (· ≥ ·) := by
  induction L with
  | nil => exact List.sorted_nil
  | cons a t ih =>
    rw [List.sorted_cons]
    refine ⟨fun b hb => ?_, ih (fun x hx => h x (List.mem_cons_of_mem a hx))⟩
    rw [h a (List.mem_cons_self a t), h b (List.mem_cons_of_mem a hb)]

/-- Flat-mapping per-order entry lists over orders sorted newest-first gives
entries whose dates are sorted newest-first. -/
theorem flatMap_orderDate_sorted (F : Order → List PriceEntry)
    (hF : ∀ o, ∀ e ∈ F o, e.orderDate = o.createdAt) :
    ∀ l : List Order, l.Sorted (fun a b => b.createdAt ≤ a.createdAt) →
      ((l.flatMap F).map (fun e => e.orderDate)).Sorted (· ≥ ·) := by
  intro l
  induction l with
  | nil => intro _; simp
  | cons o t ih =>
    intro hs
    rw [List.sorted_cons] at hs
    obtain ⟨hhead, htail⟩ := hs
    rw [List.flatMap_cons, List.map_append]
    refine List.pairwise_append.mpr ⟨?_, ih htail, ?_⟩
    · refine sorted_ge_of_const (c := o.createdAt) (fun x hx => ?_)
      obtain ⟨e, he, rfl⟩ := List.mem_map.mp hx
      exact hF o e he
    · intro a ha b hb
      obtain ⟨e, he, rfl⟩ := List.mem_map.mp ha
      obtain ⟨e', he', rfl⟩ := List.mem_map.mp hb
      obtain ⟨o', ho', he'2⟩ := List.mem_flatMap.mp he'
      rw [hF o e he, hF o' e' he'2]
      exact hhead o' ho'

/-- C7 (amended): `getClientPriceHistory` returns an entry for every
`OrderItem` of the client's orders whose variant belongs to the product
(excluding none by status); entries carry
`discount = listPrice − unitPrice` and
`discountPercent = discount / listPrice × 100` whenever `listPrice` is
present — including a present `listPrice` of 0, in which case the division
branch still runs with divisor 0 — and `discount = discountPercent = 0` when
it is absent; entries are ordered newest order first. -/
theorem priceHistory_complete_discounts_ordered (db : DB) (cid pid : Nat) :
    (∀ o ∈ db.orders, ∀ it ∈ db.items, it.orderId = o.id → o.clientId = cid →
      variantHasProduct db it.variantId pid = true →
      mkPriceEntry db o it ∈ getClientPriceHistory db cid pid) ∧
    (∀ e ∈ getClientPriceHistory db cid pid,
      (e.listPrice = none → e.discount = 0 ∧ e.discountPercent = 0) ∧
      (∀ lp, e.listPrice = some lp →
        e.discount = lp - e.unitPrice ∧
        e.discountPercent = ((lp - e.unitPrice) / lp) * 100)) ∧
    ((getClientPriceHistory db cid pid).map (fun e => e.orderDate)).Sorted
      (· ≥ ·) := by
  refine ⟨?_, ?_, ?_⟩
  · intro o ho it hit h1 h2 h3
    simp only [getClientPriceHistory]
    apply List.mem_flatMap.mpr
    refine ⟨o, ?_, ?_⟩
    · apply (List.perm_insertionSort _ _).mem_iff.mpr
      apply List.mem_filter.mpr
      refine ⟨ho, ?_⟩
      simp only [Bool.and_eq_true, decide_eq_true_eq, List.any_eq_true]
      exact ⟨h2, it, hit, by simp [h1, h3]⟩
    · exact List.mem_map.mpr
        ⟨it, List.mem_filter.mpr ⟨hit, by simp [priceHistoryItems, h1, h3]⟩, rfl⟩
  · intro e he
    simp only [getClientPriceHistory] at he
    obtain ⟨o, ho, he2⟩ := List.mem_flatMap.mp he
    obtain ⟨it, hit, rfl⟩ := List.mem_map.mp he2
    constructor
    · intro hnone
      have hl : it.listPrice = none := hnone
      simp [mkPriceEntry, hl]
    · intro lp hlp
      have hl : it.listPrice = some lp := hlp
      simp [mkPriceEntry, hl]
  · simp only [getClientPriceHistory]
    apply flatMap_orderDate_sorted
    · intro o e he
      obtain ⟨it, hit, rfl⟩ := List.mem_map.mp he
      rfl
    · exact List.sorted_insertionSort _ _

/-- Witness for C7: the zero-list-price fixture's single item appears in the
history of (client 1, product 1). -/
theorem priceHistory_complete_discounts_ordered_witness :
    zlpOrder ∈ zeroListPriceDB.orders ∧ zlpItem ∈ zeroListPriceDB.items ∧
    mkPriceEntry zeroListPriceDB zlpOrder zlpItem ∈
      getClientPriceHistory zeroListPriceDB 1 1 :=
  ⟨by decide, by decide,
   (priceHistory_complete_discounts_ordered zeroListPriceDB 1 1).1 zlpOrder
     (by decide) zlpItem (by decide) (by decide) (by decide) (by decide)⟩

/-- Counterexample to C7's "no division by zero ever occurs": on
`zeroListPriceDB` the sole history entry has `listPrice = some 0` — the
presence guard (a truthy `Decimal` object, even at 0) sends it into the
division branch with divisor 0; its `discount` is `-5` (the present-branch
formula `0 − 5`), not the absent-branch value 0. -/
theorem priceHistory_division_by_zero_listPrice :
    getClientPriceHistory zeroListPriceDB 1 1 =
      [mkPriceEntry zeroListPriceDB zlpOrder zlpItem] ∧
    (mkPriceEntry zeroListPriceDB zlpOrder zlpItem).listPrice = some 0 ∧
    (mkPriceEntry zeroListPriceDB zlpOrder zlpItem).discount = -5 := by
  refine ⟨rfl, rfl, ?_⟩
  show (0 : Rat) - 5 = -5
  norm_num

end CoreCrm
